import Mathlib

/-
  Verification development for the DB API v2 instrumentation module
  (opentracing_instrumentation/client_hooks/_dbapi2.py).

  The module is shallowly embedded: Python values are modelled by the
  inductive type PyVal, the ambient tracing context (get_current_span,
  an external collaborator) is passed as an Option parameter, the real
  driver is a function from driver calls to results, and the Python
  with-statement around the context manager returned by db_span or
  func_span is modelled by runWith, which records the driver calls that
  were actually executed and the spans that were closed.
-/

set_option autoImplicit false

namespace DbApi2

/-- A Python value, as used by the instrumentation layer: statement
parameters, connect and cursor parameters, and the connection-wrapper
object returned by ConnectionFactory. -/
inductive PyVal where
  | none
  | bool (b : Bool)
  | int (n : Int)
  | str (s : String)
  | list (xs : List PyVal)
  | tuple (xs : List PyVal)
  | dict (kvs : List (String × PyVal))
  | connWrapper (connection : PyVal) (module_name : String) (connect_params : PyVal)

/-- Python truthiness, as used by the source in tests such as
"if sql_parameters:" and "if args or safe_kwargs". -/
def pyTruthy : PyVal → Bool
  | .none => false
  | .bool b => b
  | .int n => n != 0
  | .str s => !(s = "")
  | .list xs => !xs.isEmpty
  | .tuple xs => !xs.isEmpty
  | .dict kvs => !kvs.isEmpty
  | .connWrapper _ _ _ => true

mutual

/-- Model of Python repr, used by str on containers. -/
def pyRepr : PyVal → String
  | .none => "None"
  | .bool b => if b then "True" else "False"
  | .int n => toString n
  | .str s => "\x27" ++ s ++ "\x27"
  | .list xs => "[" ++ String.intercalate ", " (pyReprL xs) ++ "]"
  | .tuple xs => "(" ++ String.intercalate ", " (pyReprL xs) ++ ")"
  | .dict kvs => "\x7b" ++ String.intercalate ", " (pyReprKVs kvs) ++ "\x7d"
  | .connWrapper _ m _ => "<" ++ m ++ " ConnectionWrapper>"
termination_by v => sizeOf v

/-- repr of each element of a Python list or tuple. -/
def pyReprL : List PyVal → List String
  | [] => []
  | x :: t => pyRepr x :: pyReprL t
termination_by l => sizeOf l

/-- repr of each key-value pair of a Python dict (string keys). -/
def pyReprKVs : List (String × PyVal) → List String
  | [] => []
  | (k, v) :: t => ("\x27" ++ k ++ "\x27: " ++ pyRepr v) :: pyReprKVs t
termination_by l => sizeOf l

end

/-- Model of Python str(), as used when rendering span tag values. -/
def pyStr : PyVal → String
  | .str s => s
  | v => pyRepr v

/-- Whitespace characters removed by Python str.strip (ASCII range). -/
def pyIsSpaceChar (c : Char) : Bool :=
  c = ' ' || c = '\t' || c = '\n' || c = '\r' || c = '\x0b' || c = '\x0c'

/-- Model of Python str.strip(): removes leading and trailing whitespace. -/
def pyStrip (s : String) : String :=
  String.mk (((s.data.dropWhile pyIsSpaceChar).reverse.dropWhile pyIsSpaceChar).reverse)

/-- Model of Python str.find(" "): index of the first space character,
or none where Python returns -1. -/
def pyFindSpace : List Char → Option Nat
  | [] => Option.none
  | c :: t => if c = ' ' then some 0 else (pyFindSpace t).map (· + 1)

/-- Lookup of a key in a tag dictionary, modelled as an association list
built in insertion order with pairwise distinct keys. -/
def lookupTag (k : String) : List (String × String) → Option String
  | [] => Option.none
  | (k', v) :: rest => if k' = k then some v else lookupTag k rest

/-- The module-level constant _COMMIT. -/
def COMMIT : String := "commit"

/-- The module-level constant _ROLLBACK. -/
def ROLLBACK : String := "rollback"

/-- The operation-name token and the add_sql_tag flag computed by db_span:
statement = sql_statement.strip(); if sql_statement is the literal commit
or rollback keyword the operation is that keyword and no sql tag is added;
otherwise the operation is the trimmed statement up to the first space,
or the empty string when there is no space. -/
def dbOpAndSqlTag (sql_statement : String) : String × Bool :=
  let statement := pyStrip sql_statement
  if sql_statement = COMMIT ∨ sql_statement = ROLLBACK then
    (sql_statement, false)
  else
    match pyFindSpace statement.data with
    | Option.none => ("", true)
    | some i => (String.mk (statement.data.take i), true)

/-- The tag dictionary built by db_span, in insertion order: sql (when
add_sql_tag), then sql.params, sql.conn, sql.cursor, each only when the
corresponding value is truthy. -/
def dbTags (sql_statement : String) (sql_parameters connect_params cursor_params : PyVal) :
    List (String × String) :=
  let statement := pyStrip sql_statement
  (if (dbOpAndSqlTag sql_statement).2 then [("sql", statement)] else [])
    ++ (if pyTruthy sql_parameters then [("sql.params", pyStr sql_parameters)] else [])
    ++ (if pyTruthy connect_params then [("sql.conn", pyStr connect_params)] else [])
    ++ (if pyTruthy cursor_params then [("sql.cursor", pyStr cursor_params)] else [])

/-- What db_span returns: with no ambient span the source returns the
empty_ctx_mgr function object itself (the contextlib2.contextmanager
factory, not called), which is not a context manager; with an ambient
span it returns the child span, which is a context manager. noopCtx is a
genuine no-op context manager (produced by the func_span collaborator
when no span is active, or by calling the factory). -/
inductive CtxResult where
  | noopFactory
  | noopCtx
  | spanCtx (op : String) (tags : List (String × String))

/-- The operation name of the span context manager, if one was produced. -/
def CtxResult.opName : CtxResult → Option String
  | .spanCtx op _ => some op
  | _ => Option.none

/-- The tags of the span context manager, if one was produced. -/
def CtxResult.tags : CtxResult → List (String × String)
  | .spanCtx _ t => t
  | _ => []

/-- db_span from the source: looks up the ambient current span (modelled
as the currentSpan argument, since get_current_span is an external
collaborator); with no span it returns empty_ctx_mgr uncalled
(noopFactory); otherwise it starts a child span named
module_name : operation with the computed tags. -/
def db_span (currentSpan : Option Unit) (sql_statement module_name : String)
    (sql_parameters connect_params cursor_params : PyVal) : CtxResult :=
  match currentSpan with
  | Option.none => CtxResult.noopFactory
  | some _ =>
      CtxResult.spanCtx (module_name ++ ":" ++ (dbOpAndSqlTag sql_statement).1)
        (dbTags sql_statement sql_parameters connect_params cursor_params)

/-- Modelled from the spec: func_span (from local_span.py, which is not
under src/) per the function-span helper contract of the spec: it wraps
a call in a span with the given name when an ambient span exists, and
degrades to a transparent no-op scope otherwise. -/
def func_span (currentSpan : Option Unit) (name : String) : CtxResult :=
  match currentSpan with
  | Option.none => CtxResult.noopCtx
  | some _ => CtxResult.spanCtx name []

/-- An invocation of the real (wrapped) driver, with the exact arguments
that the proxy passed to it. -/
inductive RealCall where
  | execute1 (sql : String)
  | execute2 (sql : String) (params : PyVal)
  | executemany (sql : String) (seq : PyVal)
  | callproc1 (name : String)
  | callproc2 (name : String) (params : PyVal)
  | commit
  | rollback
  | exitCall (exc : Option PyVal) (value : PyVal) (tb : PyVal)
  | connectCall (args : List PyVal) (kwargs : List (String × PyVal))

/-- A Python exception crossing the instrumentation layer. -/
inductive PyExc where
  | attributeError (msg : String)
  | driverError (ty : String) (msg : String)

/-- Result of a Python call: a value or a raised exception. -/
inductive PyResult (α : Type) where
  | ok (v : α)
  | exc (e : PyExc)

/-- True when the result is a raised exception. -/
def PyResult.isExc {α : Type} : PyResult α → Bool
  | .ok _ => false
  | .exc _ => true

/-- A span closed by the with-statement: its operation name, tags, and
whether it was marked failed because the protected block raised. -/
structure SpanRecord where
  op : String
  tags : List (String × String)
  failed : Bool

/-- Outcome of one instrumented call: the result delivered to the
caller, the real driver calls that were executed, and the spans that
were closed (in order). -/
structure CallOutcome where
  result : PyResult PyVal
  realCalls : List RealCall
  spans : List SpanRecord

/-- The Python with-statement applied to what db_span or func_span
returned, around a single real driver call. If the returned object is
the uncalled context-manager factory (a plain function), the
with-statement raises AttributeError looking for its enter method and
the body never runs. A no-op context manager runs the body
transparently. A span context manager runs the body, closes the span,
and marks it failed exactly when the body raised; the body's result or
exception is delivered to the caller unchanged. -/
def runWith (driver : RealCall → PyResult PyVal) (cm : CtxResult) (call : RealCall) :
    CallOutcome :=
  match cm with
  | .noopFactory => ⟨.exc (.attributeError "__enter__"), [], []⟩
  | .noopCtx =>
      match driver call with
      | .ok v => ⟨.ok v, [call], []⟩
      | .exc e => ⟨.exc e, [call], []⟩
  | .spanCtx op tags =>
      match driver call with
      | .ok v => ⟨.ok v, [call], [⟨op, tags, false⟩]⟩
      | .exc e => ⟨.exc e, [call], [⟨op, tags, true⟩]⟩

/-- All tags of the spans closed by an instrumented call. -/
def spanTagsOf (out : CallOutcome) : List (String × String) :=
  (out.spans.map SpanRecord.tags).foldr (· ++ ·) []

/-- The CursorWrapper proxy state: the module name and the connect and
cursor parameters captured at construction (the real cursor itself is
modelled by the driver function). -/
structure CursorWrapper where
  module_name : String
  connect_params : PyVal
  cursor_params : PyVal

/-- CursorWrapper.execute: params = Option.none models the NO_ARG
sentinel (caller supplied no params argument). The span statement is the
sql text; sql_parameters is params when supplied else None; the real
execute is called with one or two arguments matching the caller. -/
def CursorWrapper.execute (self : CursorWrapper) (driver : RealCall → PyResult PyVal)
    (currentSpan : Option Unit) (sql : String) (params : Option PyVal) : CallOutcome :=
  runWith driver
    (db_span currentSpan sql self.module_name
      (match params with | Option.none => PyVal.none | some p => p)
      self.connect_params self.cursor_params)
    (match params with
     | Option.none => RealCall.execute1 sql
     | some p => RealCall.execute2 sql p)

/-- CursorWrapper.executemany: the span statement is the sql text and
sql_parameters is the full sequence; the real executemany is always
called with the sequence. -/
def CursorWrapper.executemany (self : CursorWrapper) (driver : RealCall → PyResult PyVal)
    (currentSpan : Option Unit) (sql : String) (seq_of_parameters : PyVal) : CallOutcome :=
  runWith driver
    (db_span currentSpan sql self.module_name seq_of_parameters
      self.connect_params self.cursor_params)
    (RealCall.executemany sql seq_of_parameters)

/-- CursorWrapper.callproc: the span statement is "sproc:" followed by
the procedure name; params handling mirrors execute. -/
def CursorWrapper.callproc (self : CursorWrapper) (driver : RealCall → PyResult PyVal)
    (currentSpan : Option Unit) (proc_name : String) (params : Option PyVal) : CallOutcome :=
  runWith driver
    (db_span currentSpan ("sproc:" ++ proc_name) self.module_name
      (match params with | Option.none => PyVal.none | some p => p)
      self.connect_params self.cursor_params)
    (match params with
     | Option.none => RealCall.callproc1 proc_name
     | some p => RealCall.callproc2 proc_name p)

/-- The ConnectionWrapper proxy state (the real connection is modelled
by the driver function). -/
structure ConnectionWrapper where
  module_name : String
  connect_params : PyVal

/-- ConnectionWrapper.commit: wraps the real commit in
db_span(_COMMIT, module_name). -/
def ConnectionWrapper.commit (self : ConnectionWrapper) (driver : RealCall → PyResult PyVal)
    (currentSpan : Option Unit) : CallOutcome :=
  runWith driver
    (db_span currentSpan COMMIT self.module_name PyVal.none PyVal.none PyVal.none)
    RealCall.commit

/-- ConnectionWrapper.rollback: wraps the real rollback in
db_span(_ROLLBACK, module_name). -/
def ConnectionWrapper.rollback (self : ConnectionWrapper) (driver : RealCall → PyResult PyVal)
    (currentSpan : Option Unit) : CallOutcome :=
  runWith driver
    (db_span currentSpan ROLLBACK self.module_name PyVal.none PyVal.none PyVal.none)
    RealCall.rollback

/-- ContextManagerConnectionWrapper exit handler: outcome is _COMMIT
when the exception argument is None and _ROLLBACK otherwise; the real
exit is called with the same three arguments inside
db_span(outcome, module_name), and its result is returned. -/
def ContextManagerConnectionWrapper.exit (self : ConnectionWrapper)
    (driver : RealCall → PyResult PyVal) (currentSpan : Option Unit)
    (exc : Option PyVal) (value tb : PyVal) : CallOutcome :=
  let outcome := match exc with | Option.none => COMMIT | some _ => ROLLBACK
  runWith driver
    (db_span currentSpan outcome self.module_name PyVal.none PyVal.none PyVal.none)
    (RealCall.exitCall exc value tb)

/-- The kwargs actually recorded: a copy of kwargs with the passwd and
password keys deleted, when either is present (the original kwargs are
left untouched). -/
def redactKwargs (kwargs : List (String × PyVal)) : List (String × PyVal) :=
  if kwargs.any (fun kv => kv.1 = "passwd") || kwargs.any (fun kv => kv.1 = "password") then
    (kwargs.filter (fun kv => ¬ kv.1 = "passwd")).filter (fun kv => ¬ kv.1 = "password")
  else kwargs

/-- The connect_params value recorded by ConnectionFactory:
(args, safe_kwargs) if args or safe_kwargs (Python truthiness of the
tuple and the redacted dict), else None. -/
def ConnectionFactory.connectParamsOf (args : List PyVal)
    (kwargs : List (String × PyVal)) : PyVal :=
  let safe_kwargs := redactKwargs kwargs
  if !args.isEmpty || !safe_kwargs.isEmpty then
    PyVal.tuple [PyVal.tuple args, PyVal.dict safe_kwargs]
  else PyVal.none

/-- ConnectionFactory invocation: computes safe_kwargs and
connect_params, then, inside func_span(connect_func_name), calls the
real connect function with the original args and kwargs and wraps the
returned connection in a ConnectionWrapper carrying module_name and
connect_params. -/
def ConnectionFactory.call (driver : RealCall → PyResult PyVal) (currentSpan : Option Unit)
    (connect_func_name module_name : String)
    (args : List PyVal) (kwargs : List (String × PyVal)) : CallOutcome :=
  let connect_params := ConnectionFactory.connectParamsOf args kwargs
  let call := RealCall.connectCall args kwargs
  match func_span currentSpan connect_func_name with
  | .noopFactory => ⟨.exc (.attributeError "__enter__"), [], []⟩
  | .noopCtx =>
      match driver call with
      | .ok v => ⟨.ok (.connWrapper v module_name connect_params), [call], []⟩
      | .exc e => ⟨.exc e, [call], []⟩
  | .spanCtx op tags =>
      match driver call with
      | .ok v =>
          ⟨.ok (.connWrapper v module_name connect_params), [call], [⟨op, tags, false⟩]⟩
      | .exc e => ⟨.exc e, [call], [⟨op, tags, true⟩]⟩

/-- A driver stub that succeeds on every call, returning the integer 1. -/
def okDriver : RealCall → PyResult PyVal := fun _ => .ok (.int 1)

/-- A driver stub that raises a driver error on every call. -/
def failDriver : RealCall → PyResult PyVal :=
  fun _ => .exc (.driverError "OperationalError" "server gone away")

theorem runWith_spanCtx (driver : RealCall → PyResult PyVal) (op : String)
    (tags : List (String × String)) (call : RealCall) :
    (runWith driver (CtxResult.spanCtx op tags) call).result = driver call
      ∧ (runWith driver (CtxResult.spanCtx op tags) call).realCalls = [call]
      ∧ (runWith driver (CtxResult.spanCtx op tags) call).spans
          = [⟨op, tags, (driver call).isExc⟩] := by
  cases h : driver call <;> simp [runWith, h, PyResult.isExc]

theorem db_span_some (sql m : String) (p c q : PyVal) :
    db_span (some ()) sql m p c q
      = CtxResult.spanCtx (m ++ ":" ++ (dbOpAndSqlTag sql).1) (dbTags sql p c q) := rfl

theorem pyFindSpace_eq_none_iff (l : List Char) : pyFindSpace l = Option.none ↔ ' ' ∉ l := by
  induction l with
  | nil => simp [pyFindSpace]
  | cons c t ih =>
      by_cases hc : c = ' '
      · subst hc; simp [pyFindSpace]
      · simp [pyFindSpace, hc, Option.map_eq_none', ih, Ne.symm hc]

theorem pyFindSpace_take (l : List Char) (i : Nat) (h : pyFindSpace l = some i) :
    l.take i = l.takeWhile (fun c => ¬ c = ' ') := by
  induction l generalizing i with
  | nil => simp [pyFindSpace] at h
  | cons c t ih =>
      by_cases hc : c = ' '
      · subst hc
        simp [pyFindSpace] at h
        subst h
        simp [List.takeWhile_cons]
      · rw [pyFindSpace] at h
        rw [if_neg hc] at h
        rw [Option.map_eq_some'] at h
        obtain ⟨j, hj, hij⟩ := h
        subst hij
        rw [List.take_succ_cons, List.takeWhile_cons]
        simp [hc, ih j hj]

theorem dbOpAndSqlTag_snd (sql : String) (hc : sql ≠ COMMIT) (hr : sql ≠ ROLLBACK) :
    (dbOpAndSqlTag sql).2 = true := by
  simp only [dbOpAndSqlTag]
  rw [if_neg (by simp [hc, hr])]
  cases pyFindSpace (pyStrip sql).data <;> simp

theorem lookupTag_dbTags_sql (sql : String) (p c q : PyVal) :
    lookupTag "sql" (dbTags sql p c q)
      = if (dbOpAndSqlTag sql).2 then some (pyStrip sql) else Option.none := by
  simp only [dbTags]
  cases (dbOpAndSqlTag sql).2 <;> cases pyTruthy p <;> cases pyTruthy c <;>
    cases pyTruthy q <;> simp [lookupTag]

theorem lookupTag_dbTags_params (sql : String) (p c q : PyVal) :
    lookupTag "sql.params" (dbTags sql p c q)
      = if pyTruthy p then some (pyStr p) else Option.none := by
  simp only [dbTags]
  cases (dbOpAndSqlTag sql).2 <;> cases pyTruthy p <;> cases pyTruthy c <;>
    cases pyTruthy q <;> simp [lookupTag]

theorem filter_pair (l : List (String × PyVal)) :
    (l.filter (fun kv => ¬ kv.1 = "passwd")).filter (fun kv => ¬ kv.1 = "password")
      = l.filter (fun kv => ¬ kv.1 = "passwd" ∧ ¬ kv.1 = "password") := by
  rw [List.filter_filter]
  apply List.filter_congr
  intro kv _
  by_cases h1 : kv.1 = "passwd" <;> by_cases h2 : kv.1 = "password" <;> simp [h1, h2]

theorem redactKwargs_eq_filter (kwargs : List (String × PyVal)) :
    redactKwargs kwargs
      = kwargs.filter (fun kv => ¬ kv.1 = "passwd" ∧ ¬ kv.1 = "password") := by
  unfold redactKwargs
  split
  · exact filter_pair kwargs
  · rename_i h
    simp only [Bool.or_eq_true, List.any_eq_true, decide_eq_true_eq, not_or] at h
    obtain ⟨h1, h2⟩ := h
    symm
    apply List.filter_eq_self.mpr
    intro kv hkv
    simp only [decide_eq_true_eq]
    constructor
    · intro hx; exact h1 ⟨kv, hkv, hx⟩
    · intro hx; exact h2 ⟨kv, hkv, hx⟩

theorem dbOpAndSqlTag_commit : dbOpAndSqlTag COMMIT = (COMMIT, false) := by decide

theorem dbOpAndSqlTag_rollback : dbOpAndSqlTag ROLLBACK = (ROLLBACK, false) := by decide

theorem runWith_spanCtx_failed (driver : RealCall → PyResult PyVal) (op : String)
    (tags : List (String × String)) (call : RealCall) :
    (runWith driver (CtxResult.spanCtx op tags) call).spans.map SpanRecord.failed
      = [(driver call).isExc] := by
  rw [(runWith_spanCtx driver op tags call).2.2]; rfl

theorem runWith_mem_realCalls (driver : RealCall → PyResult PyVal) (cm : CtxResult)
    (call c : RealCall) (hc : c ∈ (runWith driver cm call).realCalls) : c = call := by
  cases cm with
  | noopFactory => simp [runWith] at hc
  | noopCtx =>
      cases h : driver call <;> rw [runWith] at hc <;> rw [h] at hc <;> simpa using hc
  | spanCtx op tags =>
      cases h : driver call <;> rw [runWith] at hc <;> rw [h] at hc <;> simpa using hc

theorem spanTagsOf_spanCtx (driver : RealCall → PyResult PyVal) (op : String)
    (tags : List (String × String)) (call : RealCall) :
    spanTagsOf (runWith driver (CtxResult.spanCtx op tags) call) = tags := by
  cases h : driver call <;> simp [runWith, h, spanTagsOf]

theorem not_mem_keys_redact (kwargs : List (String × PyVal)) :
    "password" ∉ (redactKwargs kwargs).map Prod.fst
      ∧ "passwd" ∉ (redactKwargs kwargs).map Prod.fst := by
  rw [redactKwargs_eq_filter]
  constructor <;>
    · intro hmem
      rw [List.mem_map] at hmem
      obtain ⟨kv, hkv, hfst⟩ := hmem
      have hp := List.of_mem_filter hkv
      simp only [decide_eq_true_eq] at hp
      first
        | exact hp.2 hfst
        | exact hp.1 hfst

theorem connectParamsOf_dict (args : List PyVal) (kwargs : List (String × PyVal))
    (ps : List PyVal) (qs : List (String × PyVal))
    (h : ConnectionFactory.connectParamsOf args kwargs
        = PyVal.tuple [PyVal.tuple ps, PyVal.dict qs]) :
    qs = redactKwargs kwargs := by
  simp only [ConnectionFactory.connectParamsOf] at h
  split at h
  · simp only [PyVal.tuple.injEq, List.cons.injEq, and_true, PyVal.dict.injEq] at h
    exact h.2.symm
  · exact absurd h (by simp)

theorem sproc_prefix_ne (nm s : String) (hs : s.data.take 6 ≠ "sproc:".data) :
    "sproc:" ++ nm ≠ s := by
  intro hEq
  apply hs
  have hd : "sproc:".data ++ nm.data = s.data := by
    rw [← hEq]; exact String.data_append "sproc:" nm
  have ht := congrArg (List.take 6) hd
  rw [List.take_left' (by decide)] at ht
  exact ht.symm

theorem pyStrip_subset (s : String) : (pyStrip s).data ⊆ s.data := by
  intro c hc
  simp only [pyStrip] at hc
  rw [List.mem_reverse] at hc
  have h1 := List.dropWhile_subset pyIsSpaceChar hc
  rw [List.mem_reverse] at h1
  exact List.dropWhile_subset pyIsSpaceChar h1

/-- C1: the spec claims that with no ambient span every instrumented call
degrades to a transparent no-op scope and the real call still runs. In
the source, db_span returns the empty_ctx_mgr factory function itself
instead of calling it, so the with-statement in execute (and in commit,
rollback, executemany, callproc) raises AttributeError looking for the
enter method of a plain function object, and the real driver call is
never executed. Evaluation at the failing input. -/
theorem C1_no_span_attribute_error :
    (CursorWrapper.execute ⟨"db", PyVal.none, PyVal.none⟩ okDriver Option.none "SELECT 1"
        Option.none).result = PyResult.exc (PyExc.attributeError "__enter__")
    ∧ (CursorWrapper.execute ⟨"db", PyVal.none, PyVal.none⟩ okDriver Option.none "SELECT 1"
        Option.none).realCalls = []
    ∧ (ConnectionWrapper.commit ⟨"db", PyVal.none⟩ okDriver Option.none).result
        = PyResult.exc (PyExc.attributeError "__enter__")
    ∧ (ConnectionWrapper.commit ⟨"db", PyVal.none⟩ okDriver Option.none).realCalls = [] :=
  ⟨rfl, rfl, rfl, rfl⟩

/-- C5: db_span on the literal commit or rollback keyword produces a span
whose operation token is that keyword and whose tags carry no sql key;
for any other statement the span carries a sql tag equal to the trimmed
statement. -/
theorem C5_commit_rollback_tags (m sql : String) (p c q : PyVal)
    (hc : sql ≠ COMMIT) (hr : sql ≠ ROLLBACK) :
    (db_span (some ()) COMMIT m p c q).opName = some (m ++ ":" ++ COMMIT)
    ∧ lookupTag "sql" (db_span (some ()) COMMIT m p c q).tags = Option.none
    ∧ (db_span (some ()) ROLLBACK m p c q).opName = some (m ++ ":" ++ ROLLBACK)
    ∧ lookupTag "sql" (db_span (some ()) ROLLBACK m p c q).tags = Option.none
    ∧ lookupTag "sql" (db_span (some ()) sql m p c q).tags = some (pyStrip sql) := by
  refine ⟨?_, ?_, ?_, ?_, ?_⟩
  · rw [db_span_some]; simp [CtxResult.opName, dbOpAndSqlTag_commit]
  · rw [db_span_some]
    show lookupTag "sql" (dbTags COMMIT p c q) = Option.none
    rw [lookupTag_dbTags_sql, dbOpAndSqlTag_commit]
    rfl
  · rw [db_span_some]; simp [CtxResult.opName, dbOpAndSqlTag_rollback]
  · rw [db_span_some]
    show lookupTag "sql" (dbTags ROLLBACK p c q) = Option.none
    rw [lookupTag_dbTags_sql, dbOpAndSqlTag_rollback]
    rfl
  · rw [db_span_some]
    show lookupTag "sql" (dbTags sql p c q) = some (pyStrip sql)
    rw [lookupTag_dbTags_sql, dbOpAndSqlTag_snd sql hc hr]
    rfl

theorem C5_witness :
    (("SELECT 1 FROM t" : String) ≠ COMMIT) ∧ (("SELECT 1 FROM t" : String) ≠ ROLLBACK)
    ∧ lookupTag "sql" (db_span (some ()) "SELECT 1 FROM t" "db" PyVal.none PyVal.none
        PyVal.none).tags = some (pyStrip "SELECT 1 FROM t") :=
  ⟨by decide, by decide,
    (C5_commit_rollback_tags "db" "SELECT 1 FROM t" PyVal.none PyVal.none PyVal.none
      (by decide) (by decide)).2.2.2.2⟩

/-- C6: for a statement other than the commit and rollback literals, the
operation token is the trimmed statement up to but excluding the first
space when one exists, and the empty string when the trimmed statement
contains no space; the derivation is a total function, so it never
raises. -/
theorem C6_operation_token (sql : String) (hc : sql ≠ COMMIT) (hr : sql ≠ ROLLBACK) :
    (' ' ∈ (pyStrip sql).data →
        (dbOpAndSqlTag sql).1
          = String.mk ((pyStrip sql).data.takeWhile (fun ch => ¬ ch = ' ')))
    ∧ (' ' ∉ (pyStrip sql).data → (dbOpAndSqlTag sql).1 = "") := by
  have hne : ¬(sql = COMMIT ∨ sql = ROLLBACK) := by
    rintro (h | h) <;> [exact hc h; exact hr h]
  constructor
  · intro hmem
    simp only [dbOpAndSqlTag]
    rw [if_neg hne]
    cases h : pyFindSpace (pyStrip sql).data with
    | none => exact absurd hmem ((pyFindSpace_eq_none_iff _).mp h)
    | some i => simp [pyFindSpace_take _ i h]
  · intro hmem
    simp only [dbOpAndSqlTag]
    rw [if_neg hne]
    cases h : pyFindSpace (pyStrip sql).data with
    | none => rfl
    | some i =>
        rw [(pyFindSpace_eq_none_iff _).mpr hmem] at h
        exact Option.noConfusion h

theorem C6_witness :
    (("SELECT 1" : String) ≠ COMMIT) ∧ (("SELECT 1" : String) ≠ ROLLBACK)
    ∧ ((' ' ∈ (pyStrip "SELECT 1").data →
        (dbOpAndSqlTag "SELECT 1").1
          = String.mk ((pyStrip "SELECT 1").data.takeWhile (fun ch => ¬ ch = ' ')))
      ∧ (' ' ∉ (pyStrip "SELECT 1").data → (dbOpAndSqlTag "SELECT 1").1 = "")) :=
  ⟨by decide, by decide, C6_operation_token "SELECT 1" (by decide) (by decide)⟩

/-- C7: the exit handler of the context-manager connection wrapper keys
the span commit when the exception argument is None and rollback
otherwise, calls the real exit with the same three arguments, and
returns exactly the real exit call's result, so the real call's
suppression semantics pass through unchanged. -/
theorem C7_exit_passthrough (driver : RealCall → PyResult PyVal) (m : String) (cp : PyVal)
    (exc : Option PyVal) (v tb : PyVal) :
    (ContextManagerConnectionWrapper.exit ⟨m, cp⟩ driver (some ()) exc v tb).result
        = driver (RealCall.exitCall exc v tb)
    ∧ (ContextManagerConnectionWrapper.exit ⟨m, cp⟩ driver (some ()) exc v tb).realCalls
        = [RealCall.exitCall exc v tb]
    ∧ (ContextManagerConnectionWrapper.exit ⟨m, cp⟩ driver (some ()) exc v tb).spans.map
          SpanRecord.op
        = [m ++ ":" ++ (match exc with | Option.none => COMMIT | some _ => ROLLBACK)] := by
  cases exc with
  | none =>
      cases h : driver (RealCall.exitCall Option.none v tb) <;>
        simp [ContextManagerConnectionWrapper.exit, runWith, db_span, h, dbOpAndSqlTag_commit]
  | some e =>
      cases h : driver (RealCall.exitCall (some e) v tb) <;>
        simp [ContextManagerConnectionWrapper.exit, runWith, db_span, h,
          dbOpAndSqlTag_rollback]

/-- C9: execute and callproc pass the real cursor method exactly one
argument when the caller supplied no params and exactly two when it did,
even when the supplied params value is empty; and every real call that
is executed is the mirrored one, for any ambient-span state. -/
theorem C9_call_arity (driver : RealCall → PyResult PyVal) (cs : Option Unit)
    (m sql nm : String) (cp cup p : PyVal) :
    (CursorWrapper.execute ⟨m, cp, cup⟩ driver (some ()) sql Option.none).realCalls
        = [RealCall.execute1 sql]
    ∧ (CursorWrapper.execute ⟨m, cp, cup⟩ driver (some ()) sql (some p)).realCalls
        = [RealCall.execute2 sql p]
    ∧ (CursorWrapper.callproc ⟨m, cp, cup⟩ driver (some ()) nm Option.none).realCalls
        = [RealCall.callproc1 nm]
    ∧ (CursorWrapper.callproc ⟨m, cp, cup⟩ driver (some ()) nm (some p)).realCalls
        = [RealCall.callproc2 nm p]
    ∧ (∀ c ∈ (CursorWrapper.execute ⟨m, cp, cup⟩ driver cs sql Option.none).realCalls,
        c = RealCall.execute1 sql)
    ∧ (∀ c ∈ (CursorWrapper.execute ⟨m, cp, cup⟩ driver cs sql (some p)).realCalls,
        c = RealCall.execute2 sql p)
    ∧ (∀ c ∈ (CursorWrapper.callproc ⟨m, cp, cup⟩ driver cs nm Option.none).realCalls,
        c = RealCall.callproc1 nm)
    ∧ (∀ c ∈ (CursorWrapper.callproc ⟨m, cp, cup⟩ driver cs nm (some p)).realCalls,
        c = RealCall.callproc2 nm p) :=
  ⟨(runWith_spanCtx driver _ _ _).2.1,
   (runWith_spanCtx driver _ _ _).2.1,
   (runWith_spanCtx driver _ _ _).2.1,
   (runWith_spanCtx driver _ _ _).2.1,
   fun c hc => runWith_mem_realCalls driver _ _ c hc,
   fun c hc => runWith_mem_realCalls driver _ _ c hc,
   fun c hc => runWith_mem_realCalls driver _ _ c hc,
   fun c hc => runWith_mem_realCalls driver _ _ c hc⟩

theorem C9_witness :
    (CursorWrapper.execute ⟨"db", PyVal.none, PyVal.none⟩ okDriver (some ()) "SELECT 1"
        Option.none).realCalls = [RealCall.execute1 "SELECT 1"] :=
  (C9_call_arity okDriver (some ()) "db" "SELECT 1" "proc" PyVal.none PyVal.none
    (PyVal.list [])).1

theorem runWith_spanCtx_ops (driver : RealCall → PyResult PyVal) (op : String)
    (tags : List (String × String)) (call : RealCall) :
    (runWith driver (CtxResult.spanCtx op tags) call).spans.map SpanRecord.op = [op] := by
  rw [(runWith_spanCtx driver op tags call).2.2]; rfl

/-- C2 counterexample: at sql = SELECT 1, calling execute with an
explicitly supplied empty params list produces exactly the same span
tags as calling execute with no params argument, and in particular no
sql.params tag, because the source guards the tag with Python
truthiness (if sql_parameters:) and an empty list is falsy. The claim
says the two calls differ in tag presence. -/
theorem C2_cex_empty_params :
    spanTagsOf (CursorWrapper.execute ⟨"db", PyVal.none, PyVal.none⟩ okDriver (some ())
        "SELECT 1" (some (PyVal.list [])))
      = spanTagsOf (CursorWrapper.execute ⟨"db", PyVal.none, PyVal.none⟩ okDriver (some ())
        "SELECT 1" Option.none)
    ∧ lookupTag "sql.params"
        (spanTagsOf (CursorWrapper.execute ⟨"db", PyVal.none, PyVal.none⟩ okDriver (some ())
          "SELECT 1" (some (PyVal.list [])))) = Option.none :=
  ⟨rfl, rfl⟩

/-- C2 amended: execute(sql) omits the sql.params tag, and execute(sql,
params) carries the tag, as the string form of params, exactly when the
supplied params value is truthy; an explicitly supplied empty params
value is falsy, so it is also omitted and the two calls of the original
claim do not differ. -/
theorem C2_params_tag_truthiness (driver : RealCall → PyResult PyVal) (m sql : String)
    (cp cup p : PyVal) :
    lookupTag "sql.params"
        (spanTagsOf (CursorWrapper.execute ⟨m, cp, cup⟩ driver (some ()) sql Option.none))
      = Option.none
    ∧ lookupTag "sql.params"
        (spanTagsOf (CursorWrapper.execute ⟨m, cp, cup⟩ driver (some ()) sql (some p)))
      = (if pyTruthy p then some (pyStr p) else Option.none) := by
  constructor
  · simp only [CursorWrapper.execute, db_span_some, spanTagsOf_spanCtx,
      lookupTag_dbTags_params]
    rfl
  · simp only [CursorWrapper.execute, db_span_some, spanTagsOf_spanCtx,
      lookupTag_dbTags_params]

/-- C3 counterexample: with no positional args and kwargs holding only
the password key, the recorded connectParams is None even though kwargs
is non-empty, because the source tests the redacted safe_kwargs rather
than the original kwargs; the claim requires the pair (args,
redactedKwargs) here, which is not None. -/
theorem C3_cex_credentials_only :
    (ConnectionFactory.call okDriver (some ()) "db:connect" "db" []
        [("password", PyVal.str "hunter2")]).result
      = PyResult.ok (PyVal.connWrapper (PyVal.int 1) "db" PyVal.none)
    ∧ ([("password", PyVal.str "hunter2")] : List (String × PyVal)) ≠ []
    ∧ PyVal.none ≠ PyVal.tuple [PyVal.tuple [], PyVal.dict []] :=
  ⟨rfl, fun hx => List.noConfusion hx, fun hx => PyVal.noConfusion hx⟩

/-- C3 amended: the recorded connectParams is None exactly when args is
empty and the redacted kwargs (kwargs with the password and passwd keys
removed) is empty; otherwise it is the pair of args and the redacted
kwargs. In particular a kwargs consisting only of credential keys
records None. -/
theorem C3_connect_params_recorded (driver : RealCall → PyResult PyVal) (cs : Option Unit)
    (fn m : String) (args : List PyVal) (kwargs : List (String × PyVal)) (v : PyVal)
    (h : driver (RealCall.connectCall args kwargs) = PyResult.ok v) :
    (ConnectionFactory.call driver cs fn m args kwargs).result
      = PyResult.ok (PyVal.connWrapper v m
          (if args.isEmpty
              && (kwargs.filter (fun kv => ¬ kv.1 = "passwd" ∧ ¬ kv.1 = "password")).isEmpty
           then PyVal.none
           else PyVal.tuple [PyVal.tuple args,
             PyVal.dict (kwargs.filter
               (fun kv => ¬ kv.1 = "passwd" ∧ ¬ kv.1 = "password"))])) := by
  have hcp : ConnectionFactory.connectParamsOf args kwargs
      = (if args.isEmpty
            && (kwargs.filter (fun kv => ¬ kv.1 = "passwd" ∧ ¬ kv.1 = "password")).isEmpty
         then PyVal.none
         else PyVal.tuple [PyVal.tuple args,
           PyVal.dict (kwargs.filter
             (fun kv => ¬ kv.1 = "passwd" ∧ ¬ kv.1 = "password"))]) := by
    simp only [ConnectionFactory.connectParamsOf, redactKwargs_eq_filter]
    cases args with
    | nil =>
        cases hk : (kwargs.filter
            (fun kv => ¬ kv.1 = "passwd" ∧ ¬ kv.1 = "password")).isEmpty
        · simp [hk]
        · simp [hk]
    | cons a t => simp
  rw [← hcp]
  cases cs with
  | none => simp [ConnectionFactory.call, func_span, h]
  | some u => cases u; simp [ConnectionFactory.call, func_span, h]

theorem C3_witness :
    okDriver (RealCall.connectCall [PyVal.str "host"] [("passwd", PyVal.str "s")])
      = PyResult.ok (PyVal.int 1)
    ∧ (ConnectionFactory.call okDriver (some ()) "db:connect" "db" [PyVal.str "host"]
        [("passwd", PyVal.str "s")]).result
      = PyResult.ok (PyVal.connWrapper (PyVal.int 1) "db"
          (if ([PyVal.str "host"] : List PyVal).isEmpty
              && (([("passwd", PyVal.str "s")] : List (String × PyVal)).filter
                  (fun kv => ¬ kv.1 = "passwd" ∧ ¬ kv.1 = "password")).isEmpty
           then PyVal.none
           else PyVal.tuple [PyVal.tuple [PyVal.str "host"],
             PyVal.dict (([("passwd", PyVal.str "s")] : List (String × PyVal)).filter
               (fun kv => ¬ kv.1 = "passwd" ∧ ¬ kv.1 = "password"))])) :=
  ⟨rfl, C3_connect_params_recorded okDriver (some ()) "db:connect" "db" [PyVal.str "host"]
    [("passwd", PyVal.str "s")] (PyVal.int 1) rfl⟩

/-- C4: when kwargs contain the password or passwd key, the real connect
callable is still invoked with the original unmodified args and kwargs,
while any pair recorded as connectParams on the returned wrapper has
both credential keys absent from its kwargs component. -/
theorem C4_redaction (driver : RealCall → PyResult PyVal) (cs : Option Unit) (fn m : String)
    (args : List PyVal) (kwargs : List (String × PyVal))
    (h : "password" ∈ kwargs.map Prod.fst ∨ "passwd" ∈ kwargs.map Prod.fst) :
    (ConnectionFactory.call driver cs fn m args kwargs).realCalls
        = [RealCall.connectCall args kwargs]
    ∧ ∀ v ps qs,
        (ConnectionFactory.call driver cs fn m args kwargs).result
            = PyResult.ok (PyVal.connWrapper v m
                (PyVal.tuple [PyVal.tuple ps, PyVal.dict qs]))
          → "password" ∉ qs.map Prod.fst ∧ "passwd" ∉ qs.map Prod.fst := by
  constructor
  · rcases cs with _ | ⟨⟩ <;>
      cases hd : driver (RealCall.connectCall args kwargs) <;>
        simp [ConnectionFactory.call, func_span, hd]
  · intro v ps qs heq
    have hqs : qs = redactKwargs kwargs := by
      rcases cs with _ | ⟨⟩ <;>
        cases hd : driver (RealCall.connectCall args kwargs) <;>
          simp only [ConnectionFactory.call, func_span, hd] at heq <;>
          first
            | exact PyResult.noConfusion heq
            | · simp only [PyResult.ok.injEq, PyVal.connWrapper.injEq, true_and] at heq
                exact connectParamsOf_dict args kwargs ps qs heq.2
    rw [hqs]
    exact ⟨(not_mem_keys_redact kwargs).1, (not_mem_keys_redact kwargs).2⟩

theorem C4_witness :
    ("password" ∈ ([("password", PyVal.str "s"), ("db", PyVal.str "x")].map
        (Prod.fst (α := String) (β := PyVal)))
      ∨ "passwd" ∈ ([("password", PyVal.str "s"), ("db", PyVal.str "x")].map
        (Prod.fst (α := String) (β := PyVal))))
    ∧ ((ConnectionFactory.call okDriver (some ()) "db:connect" "db" []
          [("password", PyVal.str "s"), ("db", PyVal.str "x")]).realCalls
        = [RealCall.connectCall [] [("password", PyVal.str "s"), ("db", PyVal.str "x")]]
      ∧ ∀ v ps qs,
          (ConnectionFactory.call okDriver (some ()) "db:connect" "db" []
              [("password", PyVal.str "s"), ("db", PyVal.str "x")]).result
              = PyResult.ok (PyVal.connWrapper v "db"
                  (PyVal.tuple [PyVal.tuple ps, PyVal.dict qs]))
            → "password" ∉ qs.map Prod.fst ∧ "passwd" ∉ qs.map Prod.fst) :=
  ⟨Or.inl (by simp),
    C4_redaction okDriver (some ()) "db:connect" "db" []
      [("password", PyVal.str "s"), ("db", PyVal.str "x")] (Or.inl (by simp))⟩

/-- C8 counterexample: a successful connect does not return the real
call's return value unchanged: the factory returns a ConnectionWrapper
object wrapping the connection, so for the connect member of the
claim's operation list the success clause fails. -/
theorem C8_cex_connect_returns_wrapper :
    okDriver (RealCall.connectCall [] []) = PyResult.ok (PyVal.int 1)
    ∧ (ConnectionFactory.call okDriver (some ()) "db:connect" "db" [] []).result
        = PyResult.ok (PyVal.connWrapper (PyVal.int 1) "db" PyVal.none)
    ∧ PyResult.ok (PyVal.connWrapper (PyVal.int 1) "db" PyVal.none)
        ≠ PyResult.ok (PyVal.int 1) := by
  refine ⟨rfl, rfl, ?_⟩
  intro hx
  injection hx with hx2
  exact PyVal.noConfusion hx2

/-- C8 amended: with an ambient span, every instrumented call closes
exactly one span, marked failed exactly when the real driver call
raised, and the caller receives the real call's exception unchanged on
failure; on success execute, executemany, callproc, commit and rollback
return the real call's value unchanged, while connect returns the
connection-wrapper proxy around the real connection. -/
theorem C8_error_transparency (driver : RealCall → PyResult PyVal) (fn m sql nm : String)
    (cp cup seq p : PyVal) (args : List PyVal) (kwargs : List (String × PyVal)) :
    (CursorWrapper.execute ⟨m, cp, cup⟩ driver (some ()) sql Option.none).result
        = driver (RealCall.execute1 sql)
    ∧ (CursorWrapper.execute ⟨m, cp, cup⟩ driver (some ()) sql Option.none).spans.map
          SpanRecord.failed = [(driver (RealCall.execute1 sql)).isExc]
    ∧ (CursorWrapper.execute ⟨m, cp, cup⟩ driver (some ()) sql (some p)).result
        = driver (RealCall.execute2 sql p)
    ∧ (CursorWrapper.execute ⟨m, cp, cup⟩ driver (some ()) sql (some p)).spans.map
          SpanRecord.failed = [(driver (RealCall.execute2 sql p)).isExc]
    ∧ (CursorWrapper.executemany ⟨m, cp, cup⟩ driver (some ()) sql seq).result
        = driver (RealCall.executemany sql seq)
    ∧ (CursorWrapper.executemany ⟨m, cp, cup⟩ driver (some ()) sql seq).spans.map
          SpanRecord.failed = [(driver (RealCall.executemany sql seq)).isExc]
    ∧ (CursorWrapper.callproc ⟨m, cp, cup⟩ driver (some ()) nm Option.none).result
        = driver (RealCall.callproc1 nm)
    ∧ (CursorWrapper.callproc ⟨m, cp, cup⟩ driver (some ()) nm Option.none).spans.map
          SpanRecord.failed = [(driver (RealCall.callproc1 nm)).isExc]
    ∧ (CursorWrapper.callproc ⟨m, cp, cup⟩ driver (some ()) nm (some p)).result
        = driver (RealCall.callproc2 nm p)
    ∧ (CursorWrapper.callproc ⟨m, cp, cup⟩ driver (some ()) nm (some p)).spans.map
          SpanRecord.failed = [(driver (RealCall.callproc2 nm p)).isExc]
    ∧ (ConnectionWrapper.commit ⟨m, cp⟩ driver (some ())).result = driver RealCall.commit
    ∧ (ConnectionWrapper.commit ⟨m, cp⟩ driver (some ())).spans.map SpanRecord.failed
        = [(driver RealCall.commit).isExc]
    ∧ (ConnectionWrapper.rollback ⟨m, cp⟩ driver (some ())).result
        = driver RealCall.rollback
    ∧ (ConnectionWrapper.rollback ⟨m, cp⟩ driver (some ())).spans.map SpanRecord.failed
        = [(driver RealCall.rollback).isExc]
    ∧ (ConnectionFactory.call driver (some ()) fn m args kwargs).result
        = (match driver (RealCall.connectCall args kwargs) with
           | PyResult.ok v => PyResult.ok (PyVal.connWrapper v m
               (ConnectionFactory.connectParamsOf args kwargs))
           | PyResult.exc e => PyResult.exc e)
    ∧ (ConnectionFactory.call driver (some ()) fn m args kwargs).spans.map
          SpanRecord.failed = [(driver (RealCall.connectCall args kwargs)).isExc] := by
  refine ⟨(runWith_spanCtx driver _ _ _).1, runWith_spanCtx_failed driver _ _ _,
    (runWith_spanCtx driver _ _ _).1, runWith_spanCtx_failed driver _ _ _,
    (runWith_spanCtx driver _ _ _).1, runWith_spanCtx_failed driver _ _ _,
    (runWith_spanCtx driver _ _ _).1, runWith_spanCtx_failed driver _ _ _,
    (runWith_spanCtx driver _ _ _).1, runWith_spanCtx_failed driver _ _ _,
    (runWith_spanCtx driver _ _ _).1, runWith_spanCtx_failed driver _ _ _,
    (runWith_spanCtx driver _ _ _).1, runWith_spanCtx_failed driver _ _ _,
    ?_, ?_⟩
  · cases hd : driver (RealCall.connectCall args kwargs) <;>
      simp [ConnectionFactory.call, func_span, hd]
  · cases hd : driver (RealCall.connectCall args kwargs) <;>
      simp [ConnectionFactory.call, func_span, hd, PyResult.isExc]

/-- C10 counterexample: the procedure name "f" followed by a newline
contains no space, yet the sql tag of the callproc span is the stripped
statement sproc:f, not the claimed literal string sproc:f-newline. -/
theorem C10_cex_trailing_newline :
    lookupTag "sql" (spanTagsOf (CursorWrapper.callproc ⟨"db", PyVal.none, PyVal.none⟩
        okDriver (some ()) "f\n" Option.none)) = some "sproc:f"
    ∧ (("sproc:f" : String) ≠ "sproc:f\n")
    ∧ ¬ (' ' ∈ "f\n".data) :=
  ⟨rfl, by decide, by decide⟩

/-- C10 amended: for a procedure name with no space, the callproc span's
operation name is the module name followed by a colon and an empty
operation token, and its sql tag is the Python-stripped form of
sproc:name, which equals sproc:name exactly when the name does not end
in whitespace. -/
theorem C10_callproc_span (driver : RealCall → PyResult PyVal) (m nm : String)
    (cp cup : PyVal) (params : Option PyVal) (h : ' ' ∉ nm.data) :
    (CursorWrapper.callproc ⟨m, cp, cup⟩ driver (some ()) nm params).spans.map SpanRecord.op
        = [m ++ ":"]
    ∧ lookupTag "sql"
        (spanTagsOf (CursorWrapper.callproc ⟨m, cp, cup⟩ driver (some ()) nm params))
        = some (pyStrip ("sproc:" ++ nm)) := by
  have hcm : "sproc:" ++ nm ≠ COMMIT := sproc_prefix_ne nm COMMIT (by decide)
  have hrb : "sproc:" ++ nm ≠ ROLLBACK := sproc_prefix_ne nm ROLLBACK (by decide)
  have hns : ' ' ∉ ("sproc:" ++ nm).data := by
    rw [String.data_append]
    intro hmem
    rcases List.mem_append.mp hmem with h1 | h2
    · exact absurd h1 (by decide)
    · exact h h2
  have hns2 : ' ' ∉ (pyStrip ("sproc:" ++ nm)).data :=
    fun hm => hns (pyStrip_subset _ hm)
  have hop : (dbOpAndSqlTag ("sproc:" ++ nm)).1 = "" := by
    simp only [dbOpAndSqlTag]
    rw [if_neg (by rintro (hx | hx); exacts [hcm hx, hrb hx])]
    rw [(pyFindSpace_eq_none_iff _).mpr hns2]
  cases params with
  | none =>
      refine ⟨?_, ?_⟩
      · simp only [CursorWrapper.callproc, db_span_some]
        rw [runWith_spanCtx_ops, hop, String.append_empty]
      · simp only [CursorWrapper.callproc, db_span_some, spanTagsOf_spanCtx]
        rw [lookupTag_dbTags_sql, dbOpAndSqlTag_snd _ hcm hrb]
        rfl
  | some p =>
      refine ⟨?_, ?_⟩
      · simp only [CursorWrapper.callproc, db_span_some]
        rw [runWith_spanCtx_ops, hop, String.append_empty]
      · simp only [CursorWrapper.callproc, db_span_some, spanTagsOf_spanCtx]
        rw [lookupTag_dbTags_sql, dbOpAndSqlTag_snd _ hcm hrb]
        rfl

theorem C10_witness :
    (' ' ∉ ("myproc" : String).data)
    ∧ ((CursorWrapper.callproc ⟨"db", PyVal.none, PyVal.none⟩ okDriver (some ()) "myproc"
          Option.none).spans.map SpanRecord.op = ["db" ++ ":"]
      ∧ lookupTag "sql"
          (spanTagsOf (CursorWrapper.callproc ⟨"db", PyVal.none, PyVal.none⟩ okDriver
            (some ()) "myproc" Option.none))
          = some (pyStrip ("sproc:" ++ "myproc"))) :=
  ⟨by decide,
    C10_callproc_span okDriver "db" "myproc" PyVal.none PyVal.none Option.none (by decide)⟩

end DbApi2
